import Mathlib

/-!
Shallow embedding of `src/src/lib.rs` of libtracecmd-rs, a Rust wrapper of the
native libtracecmd library.  The native library itself (file parsing, the
iteration loops, event lookup, field rendering) is an external collaborator of
the repository; it is modelled by explicit parameters: nullable native calls
become `Option`-valued functions bundled in `NativeEnv`, and the native
iteration loop is parametrised by the list of records it surfaces.  Rust
pointers are modelled as `Nat` tags, byte buffers as `List Nat` (each element
a byte value), Rust `Result` as `Except`, and a Rust panic as the `panicked`
constructor of `Outcome`.  Side effects that matter for resource claims
(handle close, the forgets in the callback adapter) are recorded in explicit
`Effect` traces.
-/

set_option maxHeartbeats 1000000

/-- Outcome of running a Rust function that may panic: either a normal return
value or a panic with a message. -/
inductive Outcome (α : Type) where
  | ok (val : α)
  | panicked (msg : String)
deriving DecidableEq, Repr

/-- Embedding of `enum Error` from lib.rs.  The `InvalidPid`, `InvalidTimestamp`
and `InvalidString` payloads are dropped to keep equality decidable; no claim
inspects them. -/
inductive Error where
  | Open
  | Handle
  | FindEvent
  | FindField
  | InvalidPid
  | InvalidTimestamp
  | InvalidString
  | ReadField
deriving DecidableEq, Repr

/-- True when `b` is a UTF-8 continuation byte (0x80..0xBF). -/
def isContByte (b : Nat) : Bool :=
  0x80 ≤ b && b ≤ 0xBF

/-- UTF-8 validity of a byte sequence, following the standard table used by the
Rust core library validation (`str::from_utf8` / `CStr::to_str`): ASCII,
two-byte C2..DF, three-byte E0/E1..EC/ED/EE..EF with their restricted second
bytes, four-byte F0/F1..F3/F4 with their restricted second bytes. -/
def validUtf8 : List Nat → Bool
  | [] => true
  | b :: rest =>
    if b < 0x80 then validUtf8 rest
    else if 0xC2 ≤ b && b ≤ 0xDF then
      match rest with
      | c1 :: r => isContByte c1 && validUtf8 r
      | [] => false
    else if b = 0xE0 then
      match rest with
      | c1 :: c2 :: r => (0xA0 ≤ c1 && c1 ≤ 0xBF) && isContByte c2 && validUtf8 r
      | _ => false
    else if (0xE1 ≤ b && b ≤ 0xEC) || b = 0xEE || b = 0xEF then
      match rest with
      | c1 :: c2 :: r => isContByte c1 && isContByte c2 && validUtf8 r
      | _ => false
    else if b = 0xED then
      match rest with
      | c1 :: c2 :: r => (0x80 ≤ c1 && c1 ≤ 0x9F) && isContByte c2 && validUtf8 r
      | _ => false
    else if b = 0xF0 then
      match rest with
      | c1 :: c2 :: c3 :: r =>
        (0x90 ≤ c1 && c1 ≤ 0xBF) && isContByte c2 && isContByte c3 && validUtf8 r
      | _ => false
    else if 0xF1 ≤ b && b ≤ 0xF3 then
      match rest with
      | c1 :: c2 :: c3 :: r =>
        isContByte c1 && isContByte c2 && isContByte c3 && validUtf8 r
      | _ => false
    else if b = 0xF4 then
      match rest with
      | c1 :: c2 :: c3 :: r =>
        (0x80 ≤ c1 && c1 ≤ 0x8F) && isContByte c2 && isContByte c3 && validUtf8 r
      | _ => false
    else false

/-- Embedding of `cptr_to_string`: the argument is the byte sequence the C
string pointer designates (up to its nul terminator, as read by
`CStr::from_ptr`); `CStr::to_str` checks UTF-8 validity and on failure the
function returns `Err(Error::InvalidString(..))`.  The decoded string is
represented by its byte sequence. -/
def cptr_to_string (bytes : List Nat) : Except Error (List Nat) :=
  if validUtf8 bytes then Except.ok bytes else Except.error Error.InvalidString

/-- Embedding of `struct Input(*mut tracecmd_input)`: the wrapped native handle
pointer is a `Nat` tag. -/
structure Input where
  ptr : Nat
deriving DecidableEq, Repr

/-- Embedding of `struct HandleRef(*mut tep_handle)`. -/
structure HandleRef where
  ptr : Nat
deriving DecidableEq, Repr

/-- Embedding of a `tep_record` pointee; `Record` wraps it.  Only the `ts`
field is read by the wrapper (`Record::ts`). -/
structure Record where
  ts : Nat
deriving DecidableEq, Repr

/-- Embedding of the `tep_event` pointee: the wrapper reads only its `name`
pointer, modelled as the byte sequence that pointer designates. -/
structure TepEvent where
  name : List Nat
deriving DecidableEq, Repr

/-- Embedding of `struct Event`: the raw `tep_event` pointer (modelled by its
pointee) and the decoded `name` string (modelled by its bytes). -/
structure Event where
  ptr : TepEvent
  name : List Nat
deriving DecidableEq, Repr

/-- Model of the nullable native library calls the wrapper makes: each
`Option`-valued field returns `none` exactly when the corresponding C function
returns a null pointer. -/
structure NativeEnv where
  tracecmd_open : List Nat → Option Nat
  tracecmd_get_tep : Nat → Option Nat
  tep_find_event_by_record : Nat → Record → Option TepEvent

/-- Embedding of `Input::new`: call `tracecmd_open(path, 0)`; on null return
`Err(Error::Open)`, otherwise wrap the handle.  There is no panicking path, so
the return type is a plain `Except`. -/
def Input.new (env : NativeEnv) (path : List Nat) : Except Error Input :=
  match env.tracecmd_open path with
  | none => Except.error Error.Open
  | some handle => Except.ok ⟨handle⟩

/-- Embedding of `Input::handle_ref`: call `tracecmd_get_tep(self.0)`; on null
return `Err(Error::Handle)`, otherwise `Ok(HandleRef(ret))`. -/
def Input.handle_ref (env : NativeEnv) (self : Input) : Except Error HandleRef :=
  match env.tracecmd_get_tep self.ptr with
  | none => Except.error Error.Handle
  | some ret => Except.ok ⟨ret⟩

/-- Embedding of `Input::find_event`: `self.handle_ref()?` (the `?` operator
propagates `Error::Handle`), then `tep_find_event_by_record`; on null return
`Err(Error::FindEvent)`; then `cptr_to_string((*ptr).name).expect("string")`,
which panics when the name bytes are not valid UTF-8. -/
def Input.find_event (env : NativeEnv) (self : Input) (r : Record) :
    Outcome (Except Error Event) :=
  match Input.handle_ref env self with
  | Except.error e => Outcome.ok (Except.error e)
  | Except.ok handle =>
    match env.tep_find_event_by_record handle.ptr r with
    | none => Outcome.ok (Except.error Error.FindEvent)
    | some evptr =>
      match cptr_to_string evptr.name with
      | Except.error _ => Outcome.panicked "string"
      | Except.ok name => Outcome.ok (Except.ok ⟨evptr, name⟩)

/-- Embedding of `Event::get_fields`.  The native `trace_seq` lifecycle
(init, reset, `tep_record_print_fields`, terminate) is modelled by `render`,
which yields the bytes the native library wrote into the seq buffer
(`seq.buffer` up to `seq.len`).  `std::str::from_utf8(msg).unwrap()` panics on
invalid UTF-8; otherwise the bytes are returned as the `String`.  The return
type has no error constructor: the only non-normal exit is the panic. -/
def Event.get_fields (render : Record → TepEvent → List Nat) (self : Event)
    (r : Record) : Outcome (List Nat) :=
  let msg := render r self.ptr
  if validUtf8 msg then Outcome.ok msg else Outcome.panicked "unwrap"

/-- Resource-relevant effects of the wrapper code, recorded in traces: the
steps of the `c_callback` adapter body and the handle close performed by
`Drop for Input`. -/
inductive Effect where
  | defaultConstruct
  | copyFromPtr
  | invokeCallback
  | copyToPtr
  | forgetInput
  | forgetData
  | closeHandle (handle : Nat)
deriving DecidableEq, Repr

/-- True for a `closeHandle` effect (a `tracecmd_close` call), false for every
other effect. -/
def isCloseEffect : Effect → Bool
  | Effect.closeHandle _ => true
  | _ => false

/-- Embedding of `Drop for Input`: destruction calls `tracecmd_close(self.0)`
once, on the owned handle. -/
def Input.drop (self : Input) : List Effect :=
  [Effect.closeHandle self.ptr]

/-- Embedding of `c_callback::<T>`.  `dflt` models `Default::default()` for
`T::AccumulatedData`; `callback` models `T::callback` as a pure function of
the accumulator (returning the status code and the mutated accumulator);
`inputPtr`/`r`/`cpu` are the arguments the native loop passes; `raw_data` is
the accumulator value whose bytes sit at the opaque pointer.  The result is
the status code returned to the native loop, the accumulator bytes written
back to the opaque pointer, and the trace of the adapter body: construct the
transient with the default value, overwrite its bytes with the bytes at the
opaque pointer (`ptr::copy_nonoverlapping`), invoke the callback, copy the
transient bytes back to the opaque pointer, then `mem::forget(input)` and
`mem::forget(data)` — no drop of either runs, in particular no
`tracecmd_close`. -/
def c_callback {D : Type} (dflt : D)
    (callback : Input → Record → Int → D → Int × D)
    (inputPtr : Nat) (r : Record) (cpu : Int) (raw_data : D) :
    Int × D × List Effect :=
  let input : Input := ⟨inputPtr⟩
  let data0 : D := dflt
  let t1 : List Effect := [Effect.defaultConstruct]
  let data1 : D := raw_data
  let t2 : List Effect := t1 ++ [Effect.copyFromPtr]
  let rd : Int × D := callback input r cpu data1
  let t3 : List Effect := t2 ++ [Effect.invokeCallback]
  let t4 : List Effect := t3 ++ [Effect.copyToPtr]
  let t5 : List Effect := t4 ++ [Effect.forgetInput]
  let t6 : List Effect := t5 ++ [Effect.forgetData]
  (rd.1, rd.2, t6)

/-- Model of the native iteration loop shared by `tracecmd_iterate_events` and
`tracecmd_iterate_events_multi` (external collaborators, per the libtracecmd
documentation): each surfaced entry is the native input handle, the record and
the cpu index the loop passes to the registered adapter; the loop invokes the
adapter entry by entry, threading the opaque-pointer bytes, stops at the first
nonzero status and returns it, and returns 0 after the last entry.  The third
result component is ghost instrumentation counting adapter invocations. -/
def iterLoop {D : Type}
    (adapter : Nat → Record → Int → D → Int × D × List Effect) :
    List (Nat × Record × Int) → D → Int × D × Nat
  | [], d => (0, d, 0)
  | e :: rest, d =>
    if (adapter e.1 e.2.1 e.2.2 d).1 = 0 then
      ((iterLoop adapter rest (adapter e.1 e.2.1 e.2.2 d).2.1).1,
       (iterLoop adapter rest (adapter e.1 e.2.1 e.2.2 d).2.1).2.1,
       (iterLoop adapter rest (adapter e.1 e.2.1 e.2.2 d).2.1).2.2 + 1)
    else
      ((adapter e.1 e.2.1 e.2.2 d).1, (adapter e.1 e.2.1 e.2.2 d).2.1, 1)

/-- Model of the external `tracecmd_iterate_events(handle, cpus, cpu_size,
adapter, opaque)` call made by `Handler::process` with `cpus` null and
`cpu_size` 0 (all CPUs): the entries it surfaces are a parameter. -/
def tracecmd_iterate_events {D : Type} (handle : Nat)
    (adapter : Nat → Record → Int → D → Int × D × List Effect)
    (entries : List (Nat × Record × Int)) (d : D) : Int × D × Nat :=
  iterLoop adapter entries d

/-- Model of the external `tracecmd_iterate_events_multi(handles, nr_handles,
adapter, opaque)` call made by `Handler::process_multi`: the merged entries it
surfaces are a parameter; the handle array and count only select them. -/
def tracecmd_iterate_events_multi {D : Type} (handles : List Nat)
    (nr_handles : Int)
    (adapter : Nat → Record → Int → D → Int × D × List Effect)
    (entries : List (Nat × Record × Int)) (d : D) : Int × D × Nat :=
  iterLoop adapter entries d

/-- Embedding of `Handler::process`: construct a default accumulator, run the
native loop with `c_callback` and the address of the accumulator as the opaque
pointer, and return `Ok(data)` when the loop returns 0, `Err(ret)` otherwise. -/
def Handler.process {D : Type} (dflt : D)
    (cb : Input → Record → Int → D → Int × D) (input : Input)
    (entries : List (Nat × Record × Int)) : Except Int D :=
  let data : D := dflt
  let res := tracecmd_iterate_events input.ptr (c_callback dflt cb) entries data
  if res.1 = 0 then Except.ok res.2.1 else Except.error res.1

/-- Ghost observer for `Handler::process`: the number of adapter (equivalently
callback) invocations the native loop performs on the given entries. -/
def Handler.processInvocations {D : Type} (dflt : D)
    (cb : Input → Record → Int → D → Int × D) (input : Input)
    (entries : List (Nat × Record × Int)) : Nat :=
  (tracecmd_iterate_events input.ptr (c_callback dflt cb) entries dflt).2.2

/-- Embedding of `Handler::process_multi`: identical to `Handler::process`
except that the native multi loop is given the collected handle array
(`inputs.iter().map(|input| input.0)`) and its length. -/
def Handler.process_multi {D : Type} (dflt : D)
    (cb : Input → Record → Int → D → Int × D) (inputs : List Input)
    (entries : List (Nat × Record × Int)) : Except Int D :=
  let data : D := dflt
  let nr_handles : Int := inputs.length
  let handles : List Nat := inputs.map fun i => i.ptr
  let res := tracecmd_iterate_events_multi handles nr_handles (c_callback dflt cb)
    entries data
  if res.1 = 0 then Except.ok res.2.1 else Except.error res.1

/-- Specification helper: the accumulator produced by one callback invocation
on entry `e` (native input handle, record, cpu) starting from `d`. -/
def stepData {D : Type} (cb : Input → Record → Int → D → Int × D)
    (d : D) (e : Nat × Record × Int) : D :=
  (cb ⟨e.1⟩ e.2.1 e.2.2 d).2

/-- Specification helper: the status code the callback returns at position `i`
of the entry list when the accumulator is threaded from `d`; 0 past the end. -/
def statusAt {D : Type} (cb : Input → Record → Int → D → Int × D) :
    List (Nat × Record × Int) → D → Nat → Int
  | [], _, _ => 0
  | e :: _, d, 0 => (cb ⟨e.1⟩ e.2.1 e.2.2 d).1
  | e :: rest, d, i + 1 => statusAt cb rest (stepData cb d e) i

/-- Concrete environment for exercising `Input::new`: the path `[47]` opens to
handle 5, every other path fails to open; the other native calls return null. -/
def envOpen : NativeEnv :=
  ⟨fun p => if p = [47] then some 5 else none, fun _ => none, fun _ _ => none⟩

/-- Concrete environment for exercising `Input::handle_ref`: input handle 5
resolves to tep handle 7, every other handle resolves to null. -/
def envTep : NativeEnv :=
  ⟨fun _ => none, fun h => if h = 5 then some 7 else none, fun _ _ => none⟩

/-- Concrete environment in which `tracecmd_get_tep` always returns null. -/
def envNoTep : NativeEnv :=
  ⟨fun _ => none, fun _ => none, fun _ _ => none⟩

/-- Concrete environment in which event lookup succeeds but the event name
bytes `[255]` are not valid UTF-8. -/
def envBadName : NativeEnv :=
  ⟨fun _ => none, fun _ => some 7, fun _ _ => some ⟨[255]⟩⟩

/-- Concrete environment in which event lookup succeeds with the valid ASCII
name bytes `[97]`. -/
def envGoodName : NativeEnv :=
  ⟨fun _ => none, fun _ => some 7, fun _ _ => some ⟨[97]⟩⟩

/-- Concrete native field renderer producing the invalid UTF-8 byte 255. -/
def renderBad : Record → TepEvent → List Nat := fun _ _ => [255]

/-- Concrete native field renderer producing the valid ASCII bytes `fi`. -/
def renderGood : Record → TepEvent → List Nat := fun _ _ => [102, 105]

/-- Concrete event value for exercising `Event::get_fields`. -/
def eventW : Event := ⟨⟨[97]⟩, [97]⟩

/-- Concrete counting callback: always status 0, increments the accumulator. -/
def cbCount : Input → Record → Int → Nat → Int × Nat :=
  fun _ _ _ d => (0, d + 1)

/-- Concrete stopping callback: status 0 and increment on accumulator 0,
status 1 on every later call. -/
def cbStop : Input → Record → Int → Nat → Int × Nat :=
  fun _ _ _ d => if d = 0 then (0, d + 1) else (1, d)

/-- Concrete surfaced entries: three records with timestamps 10, 20, 30. -/
def entriesW : List (Nat × Record × Int) :=
  [(1, ⟨10⟩, 0), (1, ⟨20⟩, 0), (1, ⟨30⟩, 1)]

/-- Concrete surfaced entries for the stopping scenario, same three records. -/
def entriesW2 : List (Nat × Record × Int) :=
  [(1, ⟨10⟩, 0), (1, ⟨20⟩, 0), (1, ⟨30⟩, 1)]

/-- Helper: the status code the adapter returns to the native loop is the
status code of the wrapped callback. -/
theorem c_callback_fst {D : Type} (dflt : D)
    (cb : Input → Record → Int → D → Int × D)
    (inputPtr : Nat) (r : Record) (cpu : Int) (d : D) :
    (c_callback dflt cb inputPtr r cpu d).1 = (cb ⟨inputPtr⟩ r cpu d).1 := rfl

/-- Helper: the accumulator bytes the adapter writes back to the opaque
pointer are the callback-mutated accumulator. -/
theorem c_callback_dataOut {D : Type} (dflt : D)
    (cb : Input → Record → Int → D → Int × D)
    (inputPtr : Nat) (r : Record) (cpu : Int) (d : D) :
    (c_callback dflt cb inputPtr r cpu d).2.1 = (cb ⟨inputPtr⟩ r cpu d).2 := rfl

/-- Helper: when the callback always returns status 0 the loop visits every
entry, returns 0, threads the accumulator as a left fold and invokes the
adapter once per entry. -/
theorem iterLoop_all_zero {D : Type} (dflt : D)
    (cb : Input → Record → Int → D → Int × D)
    (h : ∀ i r cpu d, (cb i r cpu d).1 = 0) :
    ∀ (entries : List (Nat × Record × Int)) (d : D),
      iterLoop (c_callback dflt cb) entries d =
        (0, entries.foldl (stepData cb) d, entries.length) := by
  intro entries
  induction entries with
  | nil => intro d; rfl
  | cons e rest ih =>
    intro d
    have h0 : (c_callback dflt cb e.1 e.2.1 e.2.2 d).1 = 0 := h _ _ _ _
    simp [iterLoop, h0, ih, c_callback_dataOut, stepData]

/-- Helper: when the threaded status is 0 before position `k` and the nonzero
`c` at position `k`, the loop stops there: it returns `c` after exactly `k + 1`
adapter invocations. -/
theorem iterLoop_stop {D : Type} (dflt : D)
    (cb : Input → Record → Int → D → Int × D) (c : Int) (hc : c ≠ 0) :
    ∀ (entries : List (Nat × Record × Int)) (k : Nat) (d : D),
      k < entries.length →
      (∀ i, i < k → statusAt cb entries d i = 0) →
      statusAt cb entries d k = c →
      (iterLoop (c_callback dflt cb) entries d).1 = c ∧
      (iterLoop (c_callback dflt cb) entries d).2.2 = k + 1 := by
  intro entries
  induction entries with
  | nil =>
    intro k d hk
    exact absurd hk (Nat.not_lt_zero k)
  | cons e rest ih =>
    intro k d hk h0 hs
    cases k with
    | zero =>
      have hstat : (cb ⟨e.1⟩ e.2.1 e.2.2 d).1 = c := hs
      constructor <;> simp [iterLoop, c_callback_fst, hstat, hc]
    | succ k' =>
      have h00 : (cb ⟨e.1⟩ e.2.1 e.2.2 d).1 = 0 := h0 0 (Nat.succ_pos k')
      have hrec := ih k' (stepData cb d e)
        (Nat.lt_of_succ_lt_succ hk)
        (fun i hi => h0 (i + 1) (Nat.succ_lt_succ hi))
        hs
      constructor
      · simp only [iterLoop, c_callback_fst, c_callback_dataOut, h00, if_pos]
        exact hrec.1
      · simp only [iterLoop, c_callback_fst, c_callback_dataOut, h00, if_pos,
          Nat.add_left_inj]
        exact hrec.2

/-- C1: for every callback that always returns status 0 and every entry list
the native loop surfaces, `Handler::process` invokes the callback exactly
`entries.length` times, threads the accumulator from the default value as a
left fold (each call sees the previous call's mutation), and returns `Ok` of
the final accumulator. -/
theorem process_all_zero_spec {D : Type} (dflt : D)
    (cb : Input → Record → Int → D → Int × D) (input : Input)
    (entries : List (Nat × Record × Int))
    (h : ∀ i r cpu d, (cb i r cpu d).1 = 0) :
    Handler.process dflt cb input entries =
      Except.ok (entries.foldl (stepData cb) dflt) ∧
    Handler.processInvocations dflt cb input entries = entries.length := by
  have hl := iterLoop_all_zero dflt cb h entries dflt
  constructor
  · simp [Handler.process, tracecmd_iterate_events, hl]
  · simp [Handler.processInvocations, tracecmd_iterate_events, hl]

/-- Witness for C1: the counting callback over three records gives `Ok 3`
after exactly three invocations. -/
theorem process_all_zero_spec_witness :
    Handler.process 0 cbCount ⟨1⟩ entriesW = Except.ok 3 ∧
    Handler.processInvocations 0 cbCount ⟨1⟩ entriesW = 3 := by
  have h := process_all_zero_spec 0 cbCount ⟨1⟩ entriesW (fun _ _ _ _ => rfl)
  exact ⟨h.1.trans rfl, h.2.trans rfl⟩

/-- C2: on every invocation the adapter `c_callback` constructs a transient
accumulator from the default value, overwrites it with the bytes at the opaque
pointer, invokes the callback on that value, writes the mutated value back to
the opaque pointer, forgets the transient (and the transient `Input`) without
running teardown, and returns the callback status unmodified: its result is
exactly the callback status, the callback-mutated accumulator, and the trace
of those five steps with no close and no drop. -/
theorem c_callback_adapter_spec {D : Type} (dflt : D)
    (cb : Input → Record → Int → D → Int × D)
    (inputPtr : Nat) (r : Record) (cpu : Int) (raw_data : D) :
    c_callback dflt cb inputPtr r cpu raw_data =
      ((cb ⟨inputPtr⟩ r cpu raw_data).1, (cb ⟨inputPtr⟩ r cpu raw_data).2,
       [Effect.defaultConstruct, Effect.copyFromPtr, Effect.invokeCallback,
        Effect.copyToPtr, Effect.forgetInput, Effect.forgetData]) := rfl

/-- C3: when the threaded status is 0 strictly before position `k` and the
callback returns the nonzero code `c` at position `k`, `Handler::process`
performs exactly `k + 1` callback invocations and returns `Err c` — a value
that carries only the native code, so the accumulator state is not exposed on
this path. -/
theorem process_stops_on_nonzero {D : Type} (dflt : D)
    (cb : Input → Record → Int → D → Int × D) (input : Input)
    (entries : List (Nat × Record × Int)) (k : Nat) (c : Int)
    (hk : k < entries.length) (hc : c ≠ 0)
    (h0 : ∀ i, i < k → statusAt cb entries dflt i = 0)
    (hs : statusAt cb entries dflt k = c) :
    Handler.process dflt cb input entries = Except.error c ∧
    Handler.processInvocations dflt cb input entries = k + 1 := by
  have hl := iterLoop_stop dflt cb c hc entries k dflt hk h0 hs
  constructor
  · simp [Handler.process, tracecmd_iterate_events, hl.1, hc]
  · simp [Handler.processInvocations, tracecmd_iterate_events, hl.2]

/-- Witness for C3: a callback returning status 1 on the second record stops
the loop after two invocations and `process` returns `Err 1`. -/
theorem process_stops_on_nonzero_witness :
    Handler.process 0 cbStop ⟨1⟩ entriesW2 = Except.error 1 ∧
    Handler.processInvocations 0 cbStop ⟨1⟩ entriesW2 = 2 := by
  have h := process_stops_on_nonzero 0 cbStop ⟨1⟩ entriesW2 1 1
    (by decide) (by decide) (by decide) (by decide)
  exact h

/-- C4, counterexample: with an environment whose event lookup succeeds with
the invalid UTF-8 name byte 255, `Input::find_event` panics (the `expect` on
the string conversion) instead of returning the `InvalidString` encoding
error, refuting the claim that it returns an encoding error rather than
crashing. -/
theorem find_event_invalid_name_panics_cex :
    Input.find_event envBadName ⟨1⟩ ⟨10⟩ = Outcome.panicked "string" ∧
    Input.find_event envBadName ⟨1⟩ ⟨10⟩ ≠
      Outcome.ok (Except.error Error.InvalidString) := by
  constructor
  · rfl
  · intro hcontra
    have hpan : Input.find_event envBadName ⟨1⟩ ⟨10⟩ =
        Outcome.panicked "string" := rfl
    rw [hpan] at hcontra
    exact Outcome.noConfusion hcontra

/-- C4 (amended): when the parser context resolves, `Input::find_event`
returns the `FindEvent` error exactly when the native lookup returns null;
when the lookup succeeds but the event name bytes are not valid UTF-8 it
panics via `expect` (the inner `cptr_to_string` does return the
`InvalidString` encoding error, but `find_event` unwraps it); with a valid
name it returns the event. -/
theorem find_event_amended_spec (env : NativeEnv) (inp : Input) (r : Record)
    (h : Nat) (ev : TepEvent)
    (hget : env.tracecmd_get_tep inp.ptr = some h) :
    (env.tep_find_event_by_record h r = none →
      Input.find_event env inp r = Outcome.ok (Except.error Error.FindEvent)) ∧
    (env.tep_find_event_by_record h r = some ev →
      (validUtf8 ev.name = false →
        Input.find_event env inp r = Outcome.panicked "string" ∧
        cptr_to_string ev.name = Except.error Error.InvalidString) ∧
      (validUtf8 ev.name = true →
        Input.find_event env inp r = Outcome.ok (Except.ok ⟨ev, ev.name⟩))) := by
  constructor
  · intro hnone
    simp [Input.find_event, Input.handle_ref, hget, hnone]
  · intro hsome
    constructor
    · intro hbad
      constructor
      · simp [Input.find_event, Input.handle_ref, hget, hsome, cptr_to_string,
          hbad]
      · simp [cptr_to_string, hbad]
    · intro hgood
      simp [Input.find_event, Input.handle_ref, hget, hsome, cptr_to_string,
        hgood]

/-- Witness for the amended C4: in the concrete bad-name environment the
lookup succeeds, the name bytes are invalid, `find_event` panics and the inner
conversion reports `InvalidString`; in the good-name environment the event is
returned. -/
theorem find_event_amended_spec_witness :
    (Input.find_event envBadName ⟨1⟩ ⟨10⟩ = Outcome.panicked "string" ∧
      cptr_to_string [255] = Except.error Error.InvalidString) ∧
    Input.find_event envGoodName ⟨1⟩ ⟨10⟩ =
      Outcome.ok (Except.ok ⟨⟨[97]⟩, [97]⟩) := by
  constructor
  · exact ((find_event_amended_spec envBadName ⟨1⟩ ⟨10⟩ 7 ⟨[255]⟩ rfl).2
      rfl).1 (by decide)
  · exact ((find_event_amended_spec envGoodName ⟨1⟩ ⟨10⟩ 7 ⟨[97]⟩ rfl).2
      rfl).2 (by decide)

/-- C5: `Drop for Input` releases the owned native handle exactly once — its
effect trace is exactly one `tracecmd_close` of the owned pointer — and an
adapter invocation performs no `tracecmd_close` at all (the transient `Input`
it wraps around the loop-supplied pointer is forgotten, never dropped), so the
handle can only ever be released by the single owning `Input` destruction. -/
theorem input_close_exactly_once :
    (∀ i : Input, Input.drop i = [Effect.closeHandle i.ptr]) ∧
    (∀ (D : Type) (dflt : D) (cb : Input → Record → Int → D → Int × D)
        (inputPtr : Nat) (r : Record) (cpu : Int) (d : D),
      ((c_callback dflt cb inputPtr r cpu d).2.2).filter isCloseEffect = []) := by
  constructor
  · intro i; rfl
  · intro D dflt cb inputPtr r cpu d; rfl

/-- C6: `Handler::process_multi` has the same contract as `Handler::process`:
with the identical adapter and marshalling, the same default accumulator and
the same surfaced entries it produces the identical result (Ok of the final
accumulator when the native loop returns 0, Err of the propagated code
otherwise); the only difference is that the multi loop receives the collected
handle array and its count instead of a single handle. -/
theorem process_multi_equiv_process {D : Type} (dflt : D)
    (cb : Input → Record → Int → D → Int × D) (inputs : List Input)
    (input : Input) (entries : List (Nat × Record × Int)) :
    Handler.process_multi dflt cb inputs entries =
      Handler.process dflt cb input entries := rfl

/-- C7: `Input::new` returns the `Open` error exactly when the native open
call returns null, and otherwise returns an `Input` owning the returned
handle; the return type has no panic outcome, so a failing open never
crashes. -/
theorem input_new_open_spec (env : NativeEnv) (path : List Nat) :
    (Input.new env path = Except.error Error.Open ↔
      env.tracecmd_open path = none) ∧
    (∀ h, env.tracecmd_open path = some h →
      Input.new env path = Except.ok ⟨h⟩) := by
  constructor
  · constructor
    · intro hnew
      cases hopen : env.tracecmd_open path with
      | none => rfl
      | some v => simp [Input.new, hopen] at hnew
    · intro hnone
      simp [Input.new, hnone]
  · intro h hsome
    simp [Input.new, hsome]

/-- Witness for C7: in the concrete environment, path `[9]` does not open and
yields the `Open` error; path `[47]` opens to handle 5. -/
theorem input_new_open_spec_witness :
    Input.new envOpen [9] = Except.error Error.Open ∧
    Input.new envOpen [47] = Except.ok ⟨5⟩ := by
  constructor
  · exact (input_new_open_spec envOpen [9]).1.mpr (by decide)
  · exact (input_new_open_spec envOpen [47]).2 5 (by decide)

/-- C8: `Input::handle_ref` returns the `Handle` error exactly when the native
`tracecmd_get_tep` call returns null, and otherwise wraps the returned parser
context pointer as a `HandleRef`. -/
theorem handle_ref_spec (env : NativeEnv) (inp : Input) :
    (Input.handle_ref env inp = Except.error Error.Handle ↔
      env.tracecmd_get_tep inp.ptr = none) ∧
    (∀ p, env.tracecmd_get_tep inp.ptr = some p →
      Input.handle_ref env inp = Except.ok ⟨p⟩) := by
  constructor
  · constructor
    · intro href
      cases hget : env.tracecmd_get_tep inp.ptr with
      | none => rfl
      | some v => simp [Input.handle_ref, hget] at href
    · intro hnone
      simp [Input.handle_ref, hnone]
  · intro p hsome
    simp [Input.handle_ref, hsome]

/-- Witness for C8: in the concrete environment, input handle 5 resolves to
the parser context 7 and input handle 9 yields the `Handle` error. -/
theorem handle_ref_spec_witness :
    Input.handle_ref envTep ⟨5⟩ = Except.ok ⟨7⟩ ∧
    Input.handle_ref envTep ⟨9⟩ = Except.error Error.Handle := by
  constructor
  · exact (handle_ref_spec envTep ⟨5⟩).2 7 (by decide)
  · exact (handle_ref_spec envTep ⟨9⟩).1.mpr (by decide)

/-- C9: `Input::find_event` re-resolves the parser context through
`handle_ref` on every call and propagates its failure: when
`tracecmd_get_tep` returns null, `find_event` returns the `Handle` error — an
error case beyond the event-lookup failure. -/
theorem find_event_propagates_handle_error (env : NativeEnv) (inp : Input)
    (r : Record) (h : env.tracecmd_get_tep inp.ptr = none) :
    Input.find_event env inp r = Outcome.ok (Except.error Error.Handle) := by
  simp [Input.find_event, Input.handle_ref, h]

/-- Witness for C9: in the environment whose context resolution always
returns null, `find_event` reports the `Handle` error. -/
theorem find_event_propagates_handle_error_witness :
    Input.find_event envNoTep ⟨1⟩ ⟨10⟩ =
      Outcome.ok (Except.error Error.Handle) :=
  find_event_propagates_handle_error envNoTep ⟨1⟩ ⟨10⟩ rfl

/-- C10: `Event::get_fields` panics (the `unwrap` on `str::from_utf8`) when
the natively rendered field buffer is not valid UTF-8, and returns the
rendered string otherwise; its return type carries no error value, so there
is no error-returning path. -/
theorem get_fields_panics_on_invalid_utf8
    (render : Record → TepEvent → List Nat) (self : Event) (r : Record) :
    (validUtf8 (render r self.ptr) = false →
      Event.get_fields render self r = Outcome.panicked "unwrap") ∧
    (validUtf8 (render r self.ptr) = true →
      Event.get_fields render self r = Outcome.ok (render r self.ptr)) := by
  constructor
  · intro h
    simp [Event.get_fields, h]
  · intro h
    simp [Event.get_fields, h]

/-- Witness for C10: the renderer producing byte 255 makes `get_fields`
panic; the renderer producing the ASCII bytes `fi` makes it return them. -/
theorem get_fields_panics_on_invalid_utf8_witness :
    Event.get_fields renderBad eventW ⟨10⟩ = Outcome.panicked "unwrap" ∧
    Event.get_fields renderGood eventW ⟨10⟩ = Outcome.ok [102, 105] := by
  constructor
  · exact (get_fields_panics_on_invalid_utf8 renderBad eventW ⟨10⟩).1
      (by decide)
  · exact (get_fields_panics_on_invalid_utf8 renderGood eventW ⟨10⟩).2
      (by decide)
